import Mathlib

/-!
# Verification of the dpymenus session state machine

A shallow embedding of the repository's `ButtonMenu` / `BaseMenu` code
(`src/dpymenus/button_menu.py`, `src/dpymenus/menus/base_menu.py`).

Python objects become Lean structures; the mutable session and the
process-wide session registry are threaded explicitly through every
operation as a `World`.  Python exceptions become an error result that
carries the state at the moment the exception is raised (exceptions do
not roll mutations back).  External platform I/O (message send/edit/
delete, reaction add/remove, logging) is recorded in an effect trace.
-/

/-- A recognized input token attached to a page: either a platform
emoji object (identified by its name) or a literal string, mirroring the
`Union[Emoji, str]` buttons of the source. -/
inductive Button where
  | emojiObj (name : String)
  | text (s : String)
  deriving DecidableEq, Repr

/-- One reaction present on the output message, as the source's
`self.output.reactions` list holds them: a `Reaction` wrapping an
`Emoji` object, a `Reaction` wrapping a plain unicode string, or a bare
element that is not a `Reaction` at all. -/
inductive ReactionEntry where
  | reactionEmoji (name : String)
  | reactionStr (s : String)
  | raw (s : String)
  deriving DecidableEq, Repr

/-- The raw reaction event delivered by the platform
(`RawReactionActionEvent`): acting user, target message, emoji name. -/
structure RawReactionEvent where
  user_id : Nat
  message_id : Nat
  emojiName : String
  deriving DecidableEq, Repr

/-- A navigation command an `on_next` hook may issue against its menu;
hooks in the source are arbitrary callables that call the session's
navigation methods, so a hook body is embedded as the list of
navigation calls it performs. -/
inductive NavCmd where
  | nNext
  | nPrevious
  | nToFirst
  | nToLast
  | nClose
  deriving DecidableEq, Repr

/-- A hook body: the sequence of navigation calls it makes. -/
abbrev Hook := List NavCmd

/-- Modelled from the spec: the `Page` entity (class `dpymenus.Page` is
not under `src/`): its position index, its button configuration and its
optional `on_next` / `on_cancel` / `on_timeout` / `on_fail` hooks.  The
`on_cancel`, `on_timeout` and `on_fail` hooks are opaque callables in
the source whose bodies the state machine never inspects, so only their
presence is modelled. -/
structure Page where
  index : Nat := 0
  buttons_list : List Button := []
  on_next_event : Option Hook := none
  on_cancel_event : Option Unit := none
  on_timeout_event : Option Unit := none
  on_fail_event : Option Unit := none
  title : String := ""
  deriving DecidableEq, Repr

/-- The captured user input: the invoking command message or a pressed
button (`Union[Message, Reaction]` in the source). -/
inductive InputVal where
  | msg (id : Nat)
  | btn (b : Button)
  deriving DecidableEq, Repr

/-- The menu's output message handle: platform id, whether its channel
is a guild channel, and the reaction snapshot carried by the object. -/
structure OutputMsg where
  id : Nat
  isGuild : Bool
  reactions : List ReactionEntry := []
  deriving DecidableEq, Repr

/-- A session key in the registry: `(author id, channel id)`. -/
abbrev SessionKey := Nat × Nat

/-- Modelled from the spec: the process-wide `sessions` mapping (the
Registry, defined in `dpymenus/__init__.py`, not under `src/`): a map
from identity to the registered session, represented by its id. -/
abbrev Registry := List (SessionKey × Nat)

/-- Key membership in the registry (`key in sessions.keys()`). -/
def Registry.containsKey (r : Registry) (k : SessionKey) : Bool :=
  r.any (fun e => e.1 = k)

/-- Insertion (`sessions.update({key: self})`). -/
def Registry.insertKey (r : Registry) (k : SessionKey) (v : Nat) : Registry :=
  r ++ [(k, v)]

/-- Deletion (`del sessions[key]`); the caller checks presence. -/
def Registry.eraseKey (r : Registry) (k : SessionKey) : Registry :=
  r.filter (fun e => !(e.1 = k : Bool))

/-- The state of one menu session: the mutable attributes of
`BaseMenu.__init__` plus the configuration attributes installed by the
fluent setters (`set_timeout`, `persist_on_close`, ...).  `customCheck`
mirrors Python attribute semantics for `self.custom_check`: `none`
means the attribute was never assigned (lookup raises
`AttributeError`), `some none` means it holds `None`, `some (some f)`
means it holds the predicate `f`. -/
structure Menu where
  sid : Nat
  authorId : Nat
  channelId : Nat
  channelIsGuild : Bool := true
  ctxMessageId : Nat := 0
  pages : List Page := []
  page : Option Page := none
  active : Bool := true
  input : Option InputVal := none
  output : Option OutputMsg := none
  history : List Nat := []
  timeoutSet : Option Nat := none
  persist : Bool := false
  commandMessage : Bool := false
  customCheck : Option (Option (RawReactionEvent → Bool)) := none

/-- What a loop iteration sends to the platform: a page render or a
bare embed (the default timed-out notice). -/
inductive SendContent where
  | pageContent (idx : Nat)
  | embedContent (title : String)
  deriving DecidableEq, Repr

/-- Observable external effects of the state machine. -/
inductive Eff where
  | sent (c : SendContent)
  | deletedOutput
  | deletedInput
  | addedReaction (b : Button)
  | removedReaction
  | fetchedOutput
  | hookInvoked (pageIdx : Nat)
  | cancelHookInvoked
  | timeoutHookInvoked
  | loggedError
  | loggedInfo
  | loggedWarning
  deriving DecidableEq, Repr

/-- Python exceptions raised by the embedded code. -/
inductive PyError where
  | attributeError (attr : String)
  | typeError (msg : String)
  | indexError
  | keyError
  | buttonsError (msg : String)
  | eventError (msg : String)
  | pagesError (msg : String)
  | sessionError (msg : String)
  deriving DecidableEq, Repr

/-- The whole mutable state an operation can touch: the session, the
registry, the effect trace, a fresh-message-id counter, the server-side
reaction list of the current output message (local `Message` objects
only see it after `fetch_message`), and the ambient emoji data consumed
by button validation (`ctx.bot.emojis` and the `emoji` package table,
external collaborators). -/
structure World where
  menu : Menu
  sessions : Registry := []
  trace : List Eff := []
  nextMsgId : Nat := 100
  serverReactions : List ReactionEntry := []
  botEmojiNames : List String := []
  unicodeEmoji : String → Bool := fun _ => false

/-- Append one effect to the trace. -/
def World.log (w : World) (e : Eff) : World :=
  { w with trace := w.trace ++ [e] }

/-- Result of running an embedded operation: normal return, or a Python
exception together with the state at the point it was raised. -/
inductive Step (α : Type) where
  | ok (w : World) (v : α)
  | err (w : World) (e : PyError)

/-- Sequencing: an exception aborts the rest of the computation. -/
def Step.bindS {α β : Type} (s : Step α) (f : World → α → Step β) : Step β :=
  match s with
  | .ok w v => f w v
  | .err w e => .err w e

/-- The state in which a run ended, whether or not it raised. -/
def Step.finalWorld {α : Type} : Step α → World
  | .ok w _ => w
  | .err w _ => w

/-- The exception a run raised, if any. -/
def Step.errOf {α : Type} : Step α → Option PyError
  | .ok _ _ => none
  | .err _ e => some e

/-- Modelled from the spec: `dpymenus.config.HISTORY_CACHE_LIMIT` (not
under `src/`), the spec's "fixed capacity constant" bounding history;
the library default of 10 is used. -/
def HISTORY_CACHE_LIMIT : Nat := 10

/-- Modelled from the spec: `dpymenus.settings.HIDE_WARNINGS` (not
under `src/`); the spec omits warnings, so the default (warnings shown)
is used. -/
def HIDE_WARNINGS : Bool := false

/-- `BaseMenu._start_session`: raise `SessionError` if the identity is
already registered, otherwise insert the session and return `True`. -/
def start_session (w : World) : Step Bool :=
  if Registry.containsKey w.sessions (w.menu.authorId, w.menu.channelId) then
    .err w (.sessionError "Duplicate session in channel for user")
  else
    .ok { w with sessions :=
            Registry.insertKey w.sessions (w.menu.authorId, w.menu.channelId) w.menu.sid } true

/-- `BaseMenu.close_session`: `del sessions[(author, channel)]` then
`self.active = False`; `del` on a missing key raises `KeyError`. -/
def close_session (w : World) : Step Unit :=
  if Registry.containsKey w.sessions (w.menu.authorId, w.menu.channelId) then
    .ok { w with sessions := Registry.eraseKey w.sessions (w.menu.authorId, w.menu.channelId),
                 menu := { w.menu with active := false } } ()
  else .err w .keyError

/-- `BaseMenu.update_history`: pop the oldest entry when the cache
limit is reached, then append the current page's index (`self.page` is
dereferenced only for the append). -/
def update_history (w : World) : Step Unit :=
  let h := if w.menu.history.length ≥ HISTORY_CACHE_LIMIT then w.menu.history.tail
           else w.menu.history
  match w.menu.page with
  | none => .err { w with menu := { w.menu with history := h } } (.attributeError "index")
  | some p => .ok { w with menu := { w.menu with history := h ++ [p.index] } } ()

/-- `BaseMenu.update_history` as a pure function of an arbitrary
configured capacity, one update at a time: `pop(0)` when the cache
limit is reached (an `IndexError` on an empty list), then append. -/
def update_history_pure (limit : Nat) (history : List Nat) (idx : Nat) :
    Except PyError (List Nat) :=
  if history.length ≥ limit then
    match history with
    | [] => .error .indexError
    | _ :: t => .ok (t ++ [idx])
  else .ok (history ++ [idx])

/-- A sequence of `update_history` calls, one per visited page index. -/
def run_history_updates (limit : Nat) (history : List Nat) :
    List Nat → Except PyError (List Nat)
  | [] => .ok history
  | x :: xs =>
    match update_history_pure limit history x with
    | .error e => .error e
    | .ok h2 => run_history_updates limit h2 xs

/-- `BaseMenu.last_visited_page`: `history[-2]` when more than one
entry exists, else `0`. -/
def last_visited_page (m : Menu) : Nat :=
  if m.history.length > 1 then m.history.getD (m.history.length - 2) 0 else 0

/-- `BaseMenu._cleanup_output`: unless persistence is configured,
delete the output message and null the handle. -/
def cleanup_output (w : World) : Step Unit :=
  if w.menu.persist then .ok w ()
  else
    match w.menu.output with
    | none => .err w (.attributeError "delete")
    | some _ =>
      .ok { w with trace := w.trace ++ [.deletedOutput],
                   menu := { w.menu with output := none } } ()

/-- `BaseMenu._cleanup_input`: unless command-message persistence is
configured, delete the invoking user message when the channel is a
guild channel. -/
def cleanup_input (w : World) : Step Unit :=
  if w.menu.commandMessage then .ok w ()
  else
    match w.menu.input with
    | none => .err w (.attributeError "channel")
    | some _ =>
      if w.menu.channelIsGuild then .ok (w.log .deletedInput) () else .ok w ()

/-- `BaseMenu.send_message`: edit the output message in place when its
channel is a guild channel; otherwise delete it and send the content to
the destination as a fresh message (fresh id, no reactions). -/
def send_message (w : World) (c : SendContent) : Step Unit :=
  match w.menu.output with
  | none => .err w (.attributeError "channel")
  | some out =>
    if out.isGuild then .ok (w.log (.sent c)) ()
    else
      let newMsg : OutputMsg :=
        { id := w.nextMsgId, isGuild := w.menu.channelIsGuild, reactions := [] }
      .ok { w with trace := w.trace ++ [.deletedOutput, .sent c],
                   nextMsgId := w.nextMsgId + 1,
                   serverReactions := [],
                   menu := { w.menu with output := some newMsg } } ()

/-- `BaseMenu._post_next` for a `ButtonMenu` (whose class name is not
`"PaginatedMenu"`): when the new current page has no `on_next` hook,
close the session and mark it inactive; then update history and render
the page. -/
def post_next (w : World) : Step Unit :=
  match w.menu.page with
  | none => .err w (.attributeError "on_next_event")
  | some p =>
    let closed : Step Unit :=
      if p.on_next_event.isNone then
        (close_session w).bindS fun w2 _ =>
          .ok { w2 with menu := { w2.menu with active := false } } ()
      else .ok w ()
    closed.bindS fun w2 _ =>
      (update_history w2).bindS fun w3 _ => send_message w3 (.pageContent p.index)

/-- `BaseMenu.next`: moving past the last index is a silent no-op;
otherwise step to `pages[index + 1]` and run the post-navigation
protocol. -/
def menu_next (w : World) : Step Unit :=
  match w.menu.page with
  | none => .err w (.attributeError "index")
  | some p =>
    if ((p.index : Int) + 1 > (w.menu.pages.length : Int) - 1 : Prop) then .ok w ()
    else
      match w.menu.pages.get? (p.index + 1) with
      | none => .err w .indexError
      | some p2 => post_next { w with menu := { w.menu with page := some p2 } }

/-- `BaseMenu.previous`: moving before the first index is a silent
no-op; otherwise step to `pages[index - 1]` and run the
post-navigation protocol. -/
def menu_previous (w : World) : Step Unit :=
  match w.menu.page with
  | none => .err w (.attributeError "index")
  | some p =>
    if ((p.index : Int) - 1 < 0 : Prop) then .ok w ()
    else
      match w.menu.pages.get? (p.index - 1) with
      | none => .err w .indexError
      | some p2 => post_next { w with menu := { w.menu with page := some p2 } }

/-- `BaseMenu.to_first`: unconditional jump to `pages[0]`. -/
def menu_to_first (w : World) : Step Unit :=
  match w.menu.pages.get? 0 with
  | none => .err w .indexError
  | some p0 => post_next { w with menu := { w.menu with page := some p0 } }

/-- `BaseMenu.to_last`: unconditional jump to `pages[-1:][0]` (an
`IndexError` on an empty page list). -/
def menu_to_last (w : World) : Step Unit :=
  match w.menu.pages.getLast? with
  | none => .err w .indexError
  | some pl => post_next { w with menu := { w.menu with page := some pl } }

/-- `BaseMenu._execute_cancel` (reached from `close()`): if the current
page has an `on_cancel` hook, invoke it and return (the hook owns all
cleanup); otherwise delete the output, unregister and deactivate. -/
def execute_cancel (w : World) : Step Unit :=
  match w.menu.page with
  | none => .err w (.attributeError "on_cancel_event")
  | some p =>
    if p.on_cancel_event.isSome then .ok (w.log .cancelHookInvoked) ()
    else
      (cleanup_output w).bindS fun w2 _ =>
        (close_session w2).bindS fun w3 _ =>
          .ok { w3 with menu := { w3.menu with active := false } } ()

/-- `BaseMenu._execute_timeout`: if the current page has an
`on_timeout` hook, invoke it and return; otherwise render the default
"Timed Out" embed, unregister and deactivate. -/
def execute_timeout (w : World) : Step Unit :=
  match w.menu.page with
  | none => .err w (.attributeError "on_timeout_event")
  | some p =>
    if p.on_timeout_event.isSome then .ok (w.log .timeoutHookInvoked) ()
    else
      (send_message w (.embedContent "Timed Out")).bindS fun w2 _ =>
        (close_session w2).bindS fun w3 _ =>
          .ok { w3 with menu := { w3.menu with active := false } } ()

/-- `BaseMenu._validate_pages`: raise `PagesError` only when the page
list is empty. -/
def validate_pages (pages : List Page) : Except PyError Unit :=
  if pages.length = 0 then
    .error (.pagesError "There must be at least one page in a menu")
  else .ok ()

/-- `BaseMenu.add_pages` (template handling and payload conversion are
external collaborators; the native-`Page`, no-template path is
embedded): validate, assign sequential indices in list order, append,
and set the current page to `pages[0]`. -/
def add_pages (m : Menu) (ps : List Page) : Except PyError Menu :=
  match validate_pages ps with
  | .error e => .error e
  | .ok _ =>
    let indexed := ps.enum.map (fun ie => { ie.2 with index := ie.1 })
    let allPages := m.pages ++ indexed
    match allPages.get? 0 with
    | none => .error .indexError
    | some p0 => .ok { m with pages := allPages, page := some p0 }

/-- `BaseMenu._open`: silent return on an empty page list; otherwise
register the session, send page 0 to the destination, point `input` at
the invoking command message, capture initial history, and delete the
invocation message per configuration. -/
def base_open (w : World) : Step Unit :=
  if w.menu.pages.isEmpty then .ok w ()
  else
    (start_session w).bindS fun w1 _ =>
      match w1.menu.page with
      | none => .err w1 (.attributeError "as_safe_embed")
      | some p =>
        let out : OutputMsg :=
          { id := w1.nextMsgId, isGuild := w1.menu.channelIsGuild, reactions := [] }
        let w2 : World :=
          { w1 with nextMsgId := w1.nextMsgId + 1,
                    serverReactions := [],
                    trace := w1.trace ++ [.sent (.pageContent p.index)],
                    menu := { w1.menu with output := some out,
                                           input := some (.msg w1.menu.ctxMessageId) } }
        (update_history w2).bindS fun w3 _ => cleanup_input w3

/-- Python's `str.split(":")` on a character list. -/
def splitOnColonChars : List Char → List (List Char)
  | [] => [[]]
  | c :: cs =>
    let r := splitOnColonChars cs
    if c = ':' then [] :: r
    else
      match r with
      | [] => [[c]]
      | g :: gs => (c :: g) :: gs

/-- Python's `str.split(":")`. -/
def pySplitColon (s : String) : List String :=
  (splitOnColonChars s.data).map (fun cs => String.mk cs)

/-- `ButtonMenu._get_emoji`: scan the current page's buttons for one
matching the raw event's emoji; an `Emoji` button matches the event
emoji directly, a string button matches by the text between colons (or
the whole string when it has no colon); a scan with no match falls off
the loop and returns `None`. -/
def get_emoji (buttons : List Button) (evName : String) : Option Button :=
  match buttons with
  | [] => none
  | b :: rest =>
    match b with
    | .emojiObj n => if n = evName then some b else get_emoji rest evName
    | .text s =>
      let t := pySplitColon s
      if t.length > 1 then
        if t.getD 1 "" = evName then some b else get_emoji rest evName
      else
        if s = evName then some b else get_emoji rest evName

/-- The normalization `_check_reaction` applies to each element of
`self.output.reactions`: a `Reaction` holding an `Emoji` contributes
its `.name`, a `Reaction` holding a string contributes the string, and
a bare element contributes itself. -/
def normalizeReaction : ReactionEntry → String
  | .reactionEmoji n => n
  | .reactionStr s => s
  | .raw s => s

/-- `ButtonMenu._check_reaction`: the event's actor must be the menu
author, its target the output message, and its emoji name one of the
normalized reactions on the output message (dereferencing a missing
output raises). -/
def check_reaction (m : Menu) (ev : RawReactionEvent) : Except PyError Bool :=
  match m.output with
  | none => .error (.attributeError "id")
  | some out =>
    .ok ((ev.user_id = m.authorId : Bool) &&
         (ev.message_id = out.id : Bool) &&
         (out.reactions.map normalizeReaction).any (fun btn => ev.emojiName = btn))

/-- The check argument the racer sources pass to `wait_for`:
`self.custom_check if self.custom_check else self._check_reaction`.
An unassigned `custom_check` attribute raises `AttributeError`; a
`None` value is falsy and selects the default validation; a predicate
value replaces it entirely. -/
def selected_check (m : Menu) :
    Except PyError (RawReactionEvent → Except PyError Bool) :=
  match m.customCheck with
  | none => .error (.attributeError "custom_check")
  | some (some f) => .ok (fun ev => .ok (f ev))
  | some none => .ok (fun ev => check_reaction m ev)

/-- `ButtonMenu._check_buttons`: accept `Emoji`/`PartialEmoji` objects
unconditionally; accept a string when the text between its colons names
a bot emoji or when the whole string is a unicode emoji; otherwise
raise `ButtonsError`. -/
def check_buttons (w : World) : List Button → Step Unit
  | [] => .ok w ()
  | b :: rest =>
    match b with
    | .emojiObj _ => check_buttons w rest
    | .text s =>
      let t := pySplitColon s
      if t.length > 1 ∧ w.botEmojiNames.contains (t.getD 1 "") then
        check_buttons w rest
      else if w.unicodeEmoji s then check_buttons w rest
      else .err w (.buttonsError "Invalid Emoji or unicode string")

/-- The page scan of `ButtonMenu._validate_buttons`: stop at the first
page with no buttons, count pages carrying an `on_next` hook, raise
`ButtonsError` for a page with fewer than one button, warn on more than
five, and validate each button. -/
def validate_buttons_loop (w : World) : List Page → Nat → Step Nat
  | [], cb => .ok w cb
  | p :: rest, cb =>
    if p.buttons_list.isEmpty then .ok w cb
    else
      let cb2 := if p.on_next_event.isSome then cb + 1 else cb
      if p.buttons_list.length < 1 then
        .err w (.buttonsError "Any page with an on_next event capture must have at least one button")
      else
        let w1 := if p.buttons_list.length > 5 ∧ HIDE_WARNINGS = false then
                    w.log .loggedWarning
                  else w
        (check_buttons w1 p.buttons_list).bindS fun w2 _ =>
          validate_buttons_loop w2 rest cb2

/-- `ButtonMenu._validate_buttons`: after the page scan, reject an
`on_fail` hook on the current page, and reject a menu with fewer
`on_next` captures than pages minus one. -/
def validate_buttons (w : World) : Step Unit :=
  (validate_buttons_loop w w.menu.pages 0).bindS fun w1 cb =>
    match w1.menu.page with
    | none => .err w1 (.attributeError "on_fail_event")
    | some p =>
      if p.on_fail_event.isSome then
        .err w1 (.eventError "A ButtonMenu can not capture an on_fail event")
      else if ((cb : Int) < (w1.menu.pages.length : Int) - 1 : Prop) then
        .err w1 (.eventError "ButtonMenu missing on_next captures")
      else .ok w1 ()

/-- The call `await self._timeout()` made by `_get_input` on timeout:
`_timeout` is not a method of `ButtonMenu` or `BaseMenu`; the instance
attribute of that name exists only when `set_timeout` stored an `int`
there, so the call raises `TypeError` in that case and
`AttributeError` otherwise. -/
def timeout_call (w : World) : Step Unit :=
  match w.menu.timeoutSet with
  | some _ => .err w (.typeError "int object is not callable")
  | none => .err w (.attributeError "_timeout")

/-- How one iteration's race between `_get_reaction_add`,
`_get_reaction_remove` and `_shortcircuit` resolved: an overall
timeout with every task pending, the liveness poll observing an
inactive session, or a qualifying raw reaction add/remove event. -/
inductive RacerOutcome where
  | timeoutOut
  | shortcircuitOut
  | addEvent (ev : RawReactionEvent)
  | removeEvent (ev : RawReactionEvent)

/-- The common body of `_get_reaction_add` / `_get_reaction_remove`
once `wait_for` has resolved with a qualifying event: normalize it
through `_get_emoji` against the current page's buttons. -/
def resolve_reaction_event (w : World) (ev : RawReactionEvent) : Step (Option Button) :=
  match w.menu.page with
  | none => .err w (.attributeError "buttons_list")
  | some p => .ok w (get_emoji p.buttons_list ev.emojiName)

/-- `ButtonMenu._get_input`: the reaction tasks evaluate
`self.custom_check` as soon as they run, so an unassigned attribute
makes both complete with `AttributeError`, which `future.result()`
re-raises.  Otherwise, on timeout with all tasks pending the code
calls the nonexistent `self._timeout`; a resolved source's truthy
result is stored into `self.input` and the falsy one returns early —
on every path the function itself returns `None`. -/
def get_input (w : World) (oc : RacerOutcome) : Step (Option Button) :=
  match w.menu.customCheck with
  | none => .err w (.attributeError "custom_check")
  | some _cc =>
    match oc with
    | .timeoutOut => (timeout_call w).bindS fun w2 _ => .ok w2 none
    | .shortcircuitOut => .ok w none
    | .addEvent ev =>
      (resolve_reaction_event w ev).bindS fun w2 r =>
        match r with
        | some b => .ok { w2 with menu := { w2.menu with input := some (.btn b) } } none
        | none => .ok w2 none
    | .removeEvent ev =>
      (resolve_reaction_event w ev).bindS fun w2 r =>
        match r with
        | some b => .ok { w2 with menu := { w2.menu with input := some (.btn b) } } none
        | none => .ok w2 none

/-- The platform representation of a reaction the bot adds for a
button. -/
def buttonReaction : Button → ReactionEntry
  | .emojiObj n => .reactionEmoji n
  | .text s => .reactionStr s

/-- `ButtonMenu._add_buttons`: add one reaction per configured button
of the current page to the output message (server side). -/
def add_buttons (w : World) : Step Unit :=
  match w.menu.page with
  | none => .err w (.attributeError "buttons_list")
  | some p =>
    match w.menu.output with
    | none => .err w (.attributeError "add_reaction")
    | some _ =>
      .ok { w with serverReactions := w.serverReactions ++ p.buttons_list.map buttonReaction,
                   trace := w.trace ++ p.buttons_list.map Eff.addedReaction } ()

/-- `self.output = await self.destination.fetch_message(self.output.id)`:
refresh the local output handle with the server-side reaction state. -/
def fetch_output (w : World) : Step Unit :=
  match w.menu.output with
  | none => .err w (.attributeError "id")
  | some out =>
    .ok { w with trace := w.trace ++ [.fetchedOutput],
                 menu := { w.menu with
                   output := some { out with reactions := w.serverReactions } } } ()

/-- Dispatch one navigation call made by a hook body. -/
def dispatch_nav (w : World) : NavCmd → Step Unit
  | .nNext => menu_next w
  | .nPrevious => menu_previous w
  | .nToFirst => menu_to_first w
  | .nToLast => menu_to_last w
  | .nClose => execute_cancel w

/-- Run a hook body: its navigation calls in order. -/
def run_hook (w : World) : List NavCmd → Step Unit
  | [] => .ok w ()
  | c :: cs => (dispatch_nav w c).bindS fun w2 _ => run_hook w2 cs

/-- `await self.page.on_next_event(self)`: calling `None` raises
`TypeError`; otherwise the hook runs against the session. -/
def invoke_on_next (w : World) : Step Unit :=
  match w.menu.page with
  | none => .err w (.attributeError "on_next_event")
  | some p =>
    match p.on_next_event with
    | none => .err w (.typeError "NoneType object is not callable")
    | some body => run_hook (w.log (.hookInvoked p.index)) body

/-- Python truthiness of `self.input`. -/
def inputTruthy : Option InputVal → Bool
  | none => false
  | some (.btn (.text s)) => !(s = "" : Bool)
  | some _ => true

/-- One iteration of the `while self.active` loop of
`ButtonMenu.open`: re-issue buttons or strip the prior reaction (not on
the first pass), re-fetch the output message, run the racer, store its
return value into `self.input`, and when that is truthy invoke the
current page's `on_next` hook and, if the page changed, call the
nonexistent `self._cleanup_reactions`. -/
def loop_iter (w : World) (oc : RacerOutcome) (first : Bool) : Step Unit :=
  let pre : Step Unit :=
    if first then .ok w ()
    else
      match w.menu.page with
      | none => .err w (.attributeError "index")
      | some p =>
        if !(last_visited_page w.menu = p.index : Bool) then add_buttons w
        else
          match w.menu.output with
          | none => .err w (.attributeError "channel")
          | some out =>
            if out.isGuild then .ok (w.log .removedReaction) () else .ok w ()
  pre.bindS fun w1 _ =>
    (fetch_output w1).bindS fun w2 _ =>
      (get_input w2 oc).bindS fun w3 v =>
        let w4 : World := { w3 with menu := { w3.menu with input := v.map InputVal.btn } }
        if inputTruthy w4.menu.input then
          (invoke_on_next w4).bindS fun w5 _ =>
            match w5.menu.page with
            | none => .err w5 (.attributeError "index")
            | some p2 =>
              if !(last_visited_page w5.menu = p2.index : Bool) then
                .err w5 (.attributeError "_cleanup_reactions")
              else .ok w5 ()
        else .ok w4 ()

/-- The `while self.active` loop, driven by the environment's schedule
of racer outcomes (one per iteration; an exhausted schedule leaves the
session awaiting further input). -/
def menu_loop (w : World) : List RacerOutcome → Bool → Step Unit
  | [], _ => .ok w ()
  | oc :: rest, first =>
    if w.menu.active then
      (loop_iter w oc first).bindS fun w2 _ => menu_loop w2 rest false
    else .ok w ()

/-- The `try` body of `ButtonMenu.open`: validation followed by the
base opening protocol. -/
def open_setup (w : World) : Step Unit :=
  (validate_buttons w).bindS fun w1 _ => base_open w1

/-- `ButtonMenu.open`: `ButtonsError`/`EventError` are logged as
errors and `SessionError` at info level, each aborting the open;
otherwise the buttons are added and the active loop runs. -/
def button_menu_open (w : World) (sched : List RacerOutcome) : Step Unit :=
  match open_setup w with
  | .err w1 e =>
    match e with
    | .buttonsError _ => .ok (w1.log .loggedError) ()
    | .eventError _ => .ok (w1.log .loggedError) ()
    | .sessionError _ => .ok (w1.log .loggedInfo) ()
    | other => .err w1 other
  | .ok w1 _ =>
    (add_buttons w1).bindS fun w2 _ => menu_loop w2 sched true

/-- The spec's end-to-end scenario, page 0: an advance hook that calls
`next()` and one reload button. -/
def c1P0 : Page :=
  { index := 0, buttons_list := [Button.text "🔄"], on_next_event := some [NavCmd.nNext] }

/-- The spec's end-to-end scenario, page 1: terminal page, no hook, no
buttons. -/
def c1P1 : Page := { index := 1 }

/-- The end-to-end session [P0, P1], freshly constructed, nothing
assigned to `custom_check`, `set_timeout` never called. -/
def c1Menu : Menu :=
  { sid := 7, authorId := 1, channelId := 2, channelIsGuild := true,
    ctxMessageId := 50, pages := [c1P0, c1P1], page := some c1P0 }

/-- The initial world of the end-to-end scenario: empty registry, the
reload symbol known to the unicode emoji table. -/
def c1World : World :=
  { menu := c1Menu, sessions := [], trace := [], nextMsgId := 100,
    serverReactions := [], botEmojiNames := [],
    unicodeEmoji := fun s => s = "🔄" }

/-- A qualifying press of the reload button by the session owner on the
output message. -/
def c1Press : RawReactionEvent := { user_id := 1, message_id := 100, emojiName := "🔄" }

/-- Running `open()` on the end-to-end session with the qualifying
press as the first racer event. -/
def c1Run : Step Unit := button_menu_open c1World [RacerOutcome.addEvent c1Press]

/-- The same session but with `custom_check` explicitly assigned
`None`, so that the racer's reaction sources run and the default
validation is used. -/
def c1MenuB : Menu := { c1Menu with customCheck := some none }

/-- The corresponding world. -/
def c1WorldB : World := { c1World with menu := c1MenuB }

/-- Running `open()` on that session with the qualifying press. -/
def c1RunB : Step Unit := button_menu_open c1WorldB [RacerOutcome.addEvent c1Press]


/-- A session sitting in its ACTIVE loop (registered, active, default
validation selected via an explicit `custom_check = None`), with
`set_timeout` never called. -/
def c2MenuA : Menu :=
  { sid := 9, authorId := 3, channelId := 4, pages := [c1P0, c1P1],
    page := some c1P0, customCheck := some none }

/-- The corresponding world, its identity registered. -/
def c2WorldA : World := { menu := c2MenuA, sessions := [((3, 4), 9)] }

/-- The same session after `set_timeout(30)`. -/
def c2WorldB : World :=
  { c2WorldA with menu := { c2MenuA with timeoutSet := some 30 } }

/-- The same session with `custom_check` never assigned (the only state
reachable through the code under `src/`, which has no setter for it). -/
def c2WorldC : World :=
  { c2WorldA with menu := { c2MenuA with customCheck := none } }

/-- A freshly constructed second session for an identity that is
already registered (to someone else's session, id 7). -/
def c3Menu : Menu :=
  { sid := 8, authorId := 1, channelId := 2, ctxMessageId := 60,
    pages := [c1P0, c1P1], page := some c1P0 }

/-- The world of the duplicate `open()`: the identity `(1, 2)` is
already mapped. -/
def c3World : World :=
  { menu := c3Menu, sessions := [((1, 2), 7)],
    unicodeEmoji := fun s => s = "🔄" }

/-- The number of pages declaring an `on_next` hook. -/
def countOnNext (ps : List Page) : Nat :=
  ps.countP (fun p => p.on_next_event.isSome)

/-- A page acceptable to the validation scan without side conditions:
a nonempty button list of at most five buttons, all passing
`_check_buttons`. -/
def pageBtnOk (w : World) (p : Page) : Prop :=
  p.buttons_list ≠ [] ∧ p.buttons_list.length ≤ 5 ∧
    check_buttons w p.buttons_list = .ok w ()

/-- The final page of the C4 scenario: it declares an on-advance hook
(and a button). -/
def c4P1 : Page :=
  { index := 1, buttons_list := [Button.text "❌"], on_next_event := some [NavCmd.nNext] }

/-- A session whose last page declares an on-advance hook. -/
def c4Menu : Menu :=
  { sid := 11, authorId := 5, channelId := 6, ctxMessageId := 70,
    pages := [c1P0, c4P1], page := some c1P0 }

/-- Its world: both symbols are unicode emojis, the registry is empty. -/
def c4World : World :=
  { menu := c4Menu, sessions := [],
    unicodeEmoji := fun s => (s = "🔄" : Bool) || (s = "❌" : Bool) }

/-- Opening the C4 session (no racer events delivered). -/
def c4Run : Step Unit := button_menu_open c4World []

/-- Whether a validation step succeeded. -/
def exceptOk : Except PyError Unit → Bool
  | .ok _ => true
  | .error _ => false

/-- A bare page with no buttons and no hooks. -/
def c5Page : Page := {}

/-- A session holding exactly one page. -/
def c5Menu : Menu :=
  { sid := 12, authorId := 8, channelId := 9, ctxMessageId := 80,
    pages := [c5Page], page := some c5Page }

/-- Its world: empty registry. -/
def c5World : World := { menu := c5Menu }

/-- Opening the single-page session (no racer events delivered). -/
def c5Run : Step Unit := button_menu_open c5World []

/-- A session currently on its last page. -/
def c6Menu : Menu :=
  { sid := 13, authorId := 1, channelId := 2, pages := [c1P0, c1P1], page := some c1P1 }

/-- Its world. -/
def c6World : World := { menu := c6Menu }

/-- The same session currently on its first page. -/
def c6MenuP : Menu := { c6Menu with page := some c1P0 }

/-- Its world. -/
def c6WorldP : World := { menu := c6MenuP }

/-- A caller-supplied custom input predicate. -/
def f8 : RawReactionEvent → Bool := fun ev => ev.user_id = 42

/-- An output message carrying the reload reaction. -/
def out8 : OutputMsg := { id := 100, isGuild := true, reactions := [.reactionStr "🔄"] }

/-- A session with that output and a configured custom check. -/
def m8 : Menu :=
  { sid := 14, authorId := 1, channelId := 2, output := some out8,
    customCheck := some (some f8) }

/-- A qualifying event for the C8 witness. -/
def ev8 : RawReactionEvent := { user_id := 1, message_id := 100, emojiName := "🔄" }

/-- A session with three history entries. -/
def c9MenuA : Menu := { sid := 15, authorId := 0, channelId := 0, history := [5, 3, 9] }

/-- A session with one history entry. -/
def c9MenuB : Menu := { sid := 16, authorId := 0, channelId := 0, history := [4] }

/-- C1.  The claim fails on the code: in the ACTIVE loop a qualifying
press of P0's button never reaches the on-advance hook.  With
`custom_check` unassigned (the only state the code under `src/` can
produce), the racer's reaction tasks evaluate the missing attribute and
the first iteration raises `AttributeError`; with `custom_check`
assigned `None` so that the default validation runs, `_get_input`
stores the matched button into `self.input` but itself returns `None`,
which `open()` assigns right back to `self.input`, so the hook is still
never invoked.  Either way the session stays on P0, stays active, and
its identity stays in the Registry. -/
theorem c1_press_never_advances :
    c1Run.errOf = some (.attributeError "custom_check") ∧
    c1Run.finalWorld.menu.active = true ∧
    c1Run.finalWorld.menu.page.map Page.index = some 0 ∧
    Registry.containsKey c1Run.finalWorld.sessions (1, 2) = true ∧
    (c1Run.finalWorld.trace.countP fun e =>
      match e with | .hookInvoked _ => true | _ => false) = 0 ∧
    c1RunB.errOf = none ∧
    c1RunB.finalWorld.menu.active = true ∧
    c1RunB.finalWorld.menu.page.map Page.index = some 0 ∧
    Registry.containsKey c1RunB.finalWorld.sessions (1, 2) = true ∧
    c1RunB.finalWorld.menu.input = none ∧
    (c1RunB.finalWorld.trace.countP fun e =>
      match e with | .hookInvoked _ => true | _ => false) = 0 :=
  ⟨rfl, rfl, rfl, rfl, rfl, rfl, rfl, rfl, rfl, rfl, rfl⟩

/-- C2.  The claim fails on the code: when every racer task is still
pending at the timeout, `_get_input` calls `self._timeout`, which does
not exist — `AttributeError` when `set_timeout` was never called,
`TypeError` when it stored an int — so the timeout protocol
(`_execute_timeout`) never runs and the state is left exactly as it
was: the session stays active and registered.  With `custom_check`
unassigned the all-pending situation cannot even arise: the reaction
tasks crash at startup and their exception is re-raised instead. -/
theorem c2_timeout_protocol_never_runs :
    get_input c2WorldA .timeoutOut = .err c2WorldA (.attributeError "_timeout") ∧
    get_input c2WorldB .timeoutOut = .err c2WorldB (.typeError "int object is not callable") ∧
    get_input c2WorldC .timeoutOut = .err c2WorldC (.attributeError "custom_check") ∧
    c2WorldA.menu.active = true ∧
    Registry.containsKey c2WorldA.sessions (3, 4) = true :=
  ⟨rfl, rfl, rfl, rfl, rfl⟩

/-- C3.  At most one session per identity: a second `open()` for an
identity that is already registered passes validation, then
`_start_session` raises `SessionError` before any mutation; `open()`
catches it, logs at info level, and returns normally without entering
the ACTIVE loop — the registry mapping and the menu are unchanged.  For
an unregistered identity, `_start_session` inserts the mapping and
returns `True`. -/
theorem c3_duplicate_session_rejected (w : World) (sched : List RacerOutcome)
    (hv : validate_buttons w = .ok w ())
    (hp : w.menu.pages.isEmpty = false)
    (hdup : Registry.containsKey w.sessions (w.menu.authorId, w.menu.channelId) = true) :
    button_menu_open w sched = .ok (w.log .loggedInfo) () ∧
    ∀ w2 : World,
      Registry.containsKey w2.sessions (w2.menu.authorId, w2.menu.channelId) = false →
      start_session w2 =
        .ok { w2 with sessions :=
                Registry.insertKey w2.sessions (w2.menu.authorId, w2.menu.channelId) w2.menu.sid }
           true := by
  constructor
  · simp only [button_menu_open, open_setup, hv, Step.bindS, base_open, hp,
      Bool.false_eq_true, if_false, start_session, hdup, if_true, World.log]
  · intro w2 h2
    simp only [start_session, h2, Bool.false_eq_true, if_false]

/-- Witness for C3: the duplicate `open()` at a concrete world whose
identity `(1, 2)` is already registered. -/
theorem c3_witness :
    button_menu_open c3World [] = .ok (c3World.log .loggedInfo) () ∧
    ∀ w2 : World,
      Registry.containsKey w2.sessions (w2.menu.authorId, w2.menu.channelId) = false →
      start_session w2 =
        .ok { w2 with sessions :=
                Registry.insertKey w2.sessions (w2.menu.authorId, w2.menu.channelId) w2.menu.sid }
           true :=
  c3_duplicate_session_rejected c3World [] rfl rfl rfl

/-- The validation page scan neither raises nor mutates anything when
every page has a short, nonempty, valid button list; it returns the
accumulator plus the number of pages declaring an `on_next` hook. -/
theorem validate_buttons_loop_count (ps : List Page) :
    ∀ (w : World) (cb : Nat), (∀ p ∈ ps, pageBtnOk w p) →
      validate_buttons_loop w ps cb = .ok w (cb + countOnNext ps) := by
  induction ps with
  | nil => intro w cb _; simp [validate_buttons_loop, countOnNext]
  | cons p rest ih =>
    intro w cb hall
    obtain ⟨hne, hle, hck⟩ := hall p (List.mem_cons_self p rest)
    have hie : p.buttons_list.isEmpty = false := by
      cases h : p.buttons_list with
      | nil => exact absurd h hne
      | cons a l => rfl
    have hlen1 : ¬ p.buttons_list.length < 1 := by
      have := List.length_pos.mpr hne; omega
    have hwarn : ¬ (p.buttons_list.length > 5 ∧ HIDE_WARNINGS = false) := by
      intro hcontra
      exact absurd hle (by omega)
    simp only [validate_buttons_loop, hie, Bool.false_eq_true, if_false, if_neg hlen1,
      if_neg hwarn, hck, Step.bindS]
    rw [ih w _ (fun q hq => hall q (List.mem_cons_of_mem p hq))]
    cases hnx : p.on_next_event.isSome <;>
      (simp [hnx, countOnNext, List.countP_cons]
       try omega)

/-- C4 (amended).  Validation at `open()` does not inspect the final
page's hook: with every page carrying between one and five valid
buttons and the current page free of an `on_fail` hook, validation
fails — with the error the spec maps to `ConfigurationError` — exactly
when fewer than N-1 pages declare an on-advance hook; a final page
declaring one is not rejected. -/
theorem c4_validation_characterized (w : World)
    (hbtn : ∀ p ∈ w.menu.pages, pageBtnOk w p)
    (p : Page) (hpage : w.menu.page = some p) (hfail : p.on_fail_event = none) :
    validate_buttons w =
      if ((countOnNext w.menu.pages : Int) < (w.menu.pages.length : Int) - 1 : Prop) then
        .err w (.eventError "ButtonMenu missing on_next captures")
      else .ok w () := by
  simp only [validate_buttons, validate_buttons_loop_count _ w 0 hbtn, Step.bindS, hpage,
    hfail, Option.isSome_none, Bool.false_eq_true, if_false, Nat.zero_add]

/-- Counterexample to C4 as stated: a session whose last page declares
an on-advance hook passes `_validate_buttons`, and `open()` then
registers the session and enters the ACTIVE loop instead of failing. -/
theorem c4_counterexample :
    validate_buttons c4World = .ok c4World () ∧
    c4Run.errOf = none ∧
    Registry.containsKey c4Run.finalWorld.sessions (5, 6) = true ∧
    c4Run.finalWorld.menu.active = true ∧
    c4World.menu.pages.getLast?.map (fun p => p.on_next_event.isSome) = some true :=
  ⟨rfl, rfl, rfl, rfl, rfl⟩

/-- Witness for C4: the characterization applied to the concrete
last-page-hook session, whose hook count (2) is not below N-1 (1). -/
theorem c4_witness :
    validate_buttons c4World =
      if ((countOnNext c4World.menu.pages : Int) <
            (c4World.menu.pages.length : Int) - 1 : Prop) then
        .err c4World (.eventError "ButtonMenu missing on_next captures")
      else .ok c4World () :=
  c4_validation_characterized c4World
    (by
      intro p hp
      have hp2 : p ∈ [c1P0, c4P1] := hp
      rcases List.mem_cons.mp hp2 with h | h
      · subst h; exact ⟨by decide, by decide, rfl⟩
      · rcases List.mem_cons.mp h with h2 | h2
        · subst h2; exact ⟨by decide, by decide, rfl⟩
        · exact absurd h2 (List.not_mem_nil p))
    c1P0 rfl rfl

/-- Counterexample to C5 as stated: a session with exactly one page
passes `_validate_pages` (which rejects only an empty list), and
`open()` registers it and enters the ACTIVE loop with the session
active. -/
theorem c5_counterexample :
    exceptOk (validate_pages [c5Page]) = true ∧
    c5Run.errOf = none ∧
    Registry.containsKey c5Run.finalWorld.sessions (8, 9) = true ∧
    c5Run.finalWorld.menu.active = true ∧
    c5World.menu.pages.length = 1 :=
  ⟨rfl, rfl, rfl, rfl, rfl⟩

/-- C5 (amended).  Only a session with zero pages is rejected
(`PagesError` at page-adding time); a session with exactly one page is
allowed: opening it registers the session, which stays active. -/
theorem c5_single_page_allowed :
    (∀ ps : List Page, exceptOk (validate_pages ps) = !ps.isEmpty) ∧
    c5Run.errOf = none ∧
    Registry.containsKey c5Run.finalWorld.sessions (8, 9) = true ∧
    c5Run.finalWorld.menu.active = true := by
  refine ⟨?_, rfl, rfl, rfl⟩
  intro ps
  cases ps with
  | nil => rfl
  | cons a l => rfl

/-- C6.  Boundary navigation is a silent no-op: `next()` on the last
page and `previous()` on the first page return without raising and
leave the entire state — current page, history, registry, output
trace — untouched. -/
theorem c6_boundary_noop (w w2 : World) (p p2 : Page)
    (h1 : w.menu.page = some p) (hne : w.menu.pages ≠ [])
    (hidx : p.index = w.menu.pages.length - 1)
    (h2 : w2.menu.page = some p2) (hidx2 : p2.index = 0) :
    menu_next w = .ok w () ∧ menu_previous w2 = .ok w2 () := by
  have hlen : 0 < w.menu.pages.length := List.length_pos.mpr hne
  constructor
  · simp only [menu_next, h1]
    rw [if_pos]
    omega
  · simp only [menu_previous, h2]
    rw [if_pos]
    omega

/-- Witness for C6: the two-page session, once on its last page for
`next()` and once on its first page for `previous()`. -/
theorem c6_witness : menu_next c6World = .ok c6World () ∧ menu_previous c6WorldP = .ok c6WorldP () :=
  c6_boundary_noop c6World c6WorldP c1P1 c1P0 rfl (List.cons_ne_nil _ _) rfl rfl rfl

/-- Dropping fewer elements than the list holds preserves its last
element. -/
theorem getLast?_drop_of_lt : ∀ (xs : List Nat) (n : Nat), n < xs.length →
    (xs.drop n).getLast? = xs.getLast? := by
  intro xs
  induction xs with
  | nil => intro n h; simp at h
  | cons y ys ih =>
    intro n h
    cases n with
    | zero => rfl
    | succ m =>
      rw [List.drop_succ_cons, ih m (by simp at h; omega)]
      cases ys with
      | nil => simp at h
      | cons b l => exact (List.getLast?_cons_cons).symm

/-- Running the history update from any state within capacity keeps
exactly the newest `limit` of the visited indices. -/
theorem run_history_updates_ok (limit : Nat) (hl : 0 < limit) :
    ∀ (xs h : List Nat), h.length ≤ limit →
      run_history_updates limit h xs =
        .ok ((h ++ xs).drop ((h ++ xs).length - limit)) := by
  intro xs
  induction xs with
  | nil =>
    intro h hlen
    simp only [run_history_updates, List.append_nil]
    rw [Nat.sub_eq_zero_of_le hlen, List.drop_zero]
  | cons x xs ih =>
    intro h hlen
    by_cases hge : h.length ≥ limit
    · have heq : h.length = limit := le_antisymm hlen hge
      cases h with
      | nil =>
        simp only [List.length_nil] at heq
        omega
      | cons y t =>
        have hlt : (t ++ [x]).length ≤ limit := by
          simp only [List.length_append, List.length_cons, List.length_nil] at heq ⊢
          omega
        simp only [run_history_updates, update_history_pure, if_pos hge]
        rw [ih (t ++ [x]) hlt]
        have h1 : (y :: t) ++ x :: xs = y :: ((t ++ [x]) ++ xs) := by simp
        rw [h1]
        have h2 : (y :: ((t ++ [x]) ++ xs)).length - limit =
            (((t ++ [x]) ++ xs).length - limit) + 1 := by
          simp only [List.length_cons, List.length_append, List.length_nil] at heq ⊢
          omega
        rw [h2, List.drop_succ_cons]
    · simp only [run_history_updates, update_history_pure, if_neg hge]
      rw [ih (h ++ [x]) (by simp only [List.length_append, List.length_cons, List.length_nil]; omega)]
      have h3 : h ++ x :: xs = (h ++ [x]) ++ xs := by simp
      rw [h3]

/-- C7.  The History Tracker never exceeds its configured capacity:
starting from an empty history, a sequence of `update_history` calls
(one per visited index) leaves exactly the newest `capacity` indices,
in order — so after capacity+K updates the oldest K are gone, the
length is within capacity, and the newest entry is the most recently
visited index. -/
theorem c7_history_capacity (limit : Nat) (hl : 0 < limit) (xs : List Nat) :
    run_history_updates limit [] xs = .ok (xs.drop (xs.length - limit)) ∧
    (xs.drop (xs.length - limit)).length ≤ limit ∧
    (xs ≠ [] → (xs.drop (xs.length - limit)).getLast? = xs.getLast?) := by
  refine ⟨?_, ?_, ?_⟩
  · simpa using run_history_updates_ok limit hl xs [] (by simp)
  · rw [List.length_drop]; omega
  · intro hne
    have hxl : 0 < xs.length := List.length_pos.mpr hne
    exact getLast?_drop_of_lt _ _ (by omega)

/-- Witness for C7: capacity 3 with five updates keeps the newest
three indices. -/
theorem c7_witness :
    run_history_updates 3 [] [0, 1, 2, 3, 4] =
      .ok ([0, 1, 2, 3, 4].drop ([0, 1, 2, 3, 4].length - 3)) ∧
    ([0, 1, 2, 3, 4].drop ([0, 1, 2, 3, 4].length - 3)).length ≤ 3 ∧
    (([0, 1, 2, 3, 4] : List Nat) ≠ [] →
      ([0, 1, 2, 3, 4].drop ([0, 1, 2, 3, 4].length - 3)).getLast? =
        [0, 1, 2, 3, 4].getLast?) :=
  c7_history_capacity 3 (by decide) [0, 1, 2, 3, 4]

/-- C8.  The racer's default validation accepts a reaction event
exactly when the actor is the session owner, the target is the current
output message, and the emoji's symbol is among the (normalized)
symbols attached to that message; and a configured custom predicate
fully replaces this validation as the check handed to the event
subscription. -/
theorem c8_reaction_validation (m : Menu) (out : OutputMsg) (ev : RawReactionEvent)
    (hout : m.output = some out) :
    (check_reaction m ev = .ok true ↔
      (ev.user_id = m.authorId ∧ ev.message_id = out.id ∧
        ev.emojiName ∈ out.reactions.map normalizeReaction)) ∧
    (∀ f, m.customCheck = some (some f) →
      selected_check m = .ok (fun e => .ok (f e))) := by
  constructor
  · simp only [check_reaction, hout, Except.ok.injEq, Bool.and_eq_true, decide_eq_true_eq,
      List.any_eq_true]
    constructor
    · rintro ⟨⟨hu, hm⟩, x, hx, hex⟩
      exact ⟨hu, hm, hex ▸ hx⟩
    · rintro ⟨hu, hm, hmem⟩
      exact ⟨⟨hu, hm⟩, ev.emojiName, hmem, rfl⟩
  · intro f hf
    simp only [selected_check, hf]

/-- Witness for C8: a session whose output carries the reload
reaction and whose custom check is configured. -/
theorem c8_witness :
    (check_reaction m8 ev8 = .ok true ↔
      (ev8.user_id = m8.authorId ∧ ev8.message_id = out8.id ∧
        ev8.emojiName ∈ out8.reactions.map normalizeReaction)) ∧
    (∀ f, m8.customCheck = some (some f) →
      selected_check m8 = .ok (fun e => .ok (f e))) :=
  c8_reaction_validation m8 out8 ev8 rfl

/-- C9.  `last_visited_page` returns the second-most-recent history
entry when at least two entries exist, and 0 when fewer than two
exist. -/
theorem c9_last_visited (m : Menu) :
    (∀ h a b, m.history = h ++ [a, b] → last_visited_page m = a) ∧
    (m.history.length ≤ 1 → last_visited_page m = 0) := by
  constructor
  · intro h a b hh
    have hlen : m.history.length = h.length + 2 := by simp [hh]
    have hgt : m.history.length > 1 := by omega
    rw [last_visited_page, if_pos hgt, hlen, hh]
    have h2 : h.length + 2 - 2 = h.length := by omega
    rw [h2, List.getD_eq_getElem?_getD, List.getElem?_append_right (Nat.le_refl h.length)]
    simp
  · intro hle
    rw [last_visited_page, if_neg (by omega)]

/-- Witness for C9: histories `[5, 3, 9]` (second-most-recent 3) and
`[4]` (fewer than two entries). -/
theorem c9_witness : last_visited_page c9MenuA = 3 ∧ last_visited_page c9MenuB = 0 :=
  ⟨(c9_last_visited c9MenuA).1 [5] 3 9 rfl, (c9_last_visited c9MenuB).2 (by decide)⟩
